import Mathlib

/-!
Shallow embedding of the cancellable chat-completion orchestration layer
(`src/core/client.py`) and the usage recorder (`src/core/usage_stats.py`)
of the claude-code-proxy repository, together with theorems settling the
spec claims about them.

Conventions of the embedding:
* Python dicts are association lists with unique keys; `dictSet` replaces
  the value in place (preserving position) or appends a new key, matching
  CPython's insertion-order semantics.
* The cancellation registry `active_requests : Dict[str, asyncio.Event]`
  is a `List (String × Bool)`; the Bool is the event's is_set flag.
* Concurrency is resolved by explicit parameters: `cancelBeforeRace`
  (non-streaming) says whether `cancel_request` ran for this id before the
  `asyncio.wait` race join point; `cancelBefore` (streaming) gives the
  chunk index from which on the signal is observed set at the per-chunk
  boundary check.
* `str()` of values and JSON serialization of chunks are carried as plain
  strings; timestamps and latency are opaque parameters.
-/

namespace ClaudeProxy

/-- Substring containment, modelling Python's `needle in haystack` on str. -/
def strContains (haystack needle : String) : Bool :=
  decide (List.IsInfix needle.toList haystack.toList)

/-- Python's `str.lower()`, charwise (the source's patterns and realistic
error texts are ASCII, where this coincides with `str.lower`). -/
def strLower (s : String) : String :=
  String.mk (s.toList.map Char.toLower)

/-! ### Cancellation registry (`self.active_requests`) -/

/-- The process-wide table `active_requests : Dict[str, asyncio.Event]`;
the Bool is the stored event's `is_set()` state. -/
abbrev Registry := List (String × Bool)

/-- Dict lookup `active_requests.get(id)`. -/
def regLookup : Registry → String → Option Bool
  | [], _ => none
  | (k, v) :: r, id => if k = id then some v else regLookup r id

/-- Membership test `id in active_requests`. -/
def regContains (r : Registry) (id : String) : Bool :=
  (regLookup r id).isSome

/-- Dict store `active_requests[id] = Event()` (fresh event is unset):
replaces the value at the (unique) existing key in place, else appends. -/
def regInsert : Registry → String → Bool → Registry
  | [], id, v => [(id, v)]
  | (k, w) :: r, id, v =>
    if k = id then (k, v) :: r else (k, w) :: regInsert r id v

/-- `active_requests[id].set()`: sets the stored event of key `id`. -/
def regSetSignal : Registry → String → Registry
  | [], _ => []
  | (k, w) :: r, id =>
    if k = id then (k, true) :: regSetSignal r id
    else (k, w) :: regSetSignal r id

/-- `del active_requests[id]`: removes the entry for `id`. -/
def regErase : Registry → String → Registry
  | [], _ => []
  | (k, w) :: r, id =>
    if k = id then regErase r id else (k, w) :: regErase r id

/-- `OpenAIClient.cancel_request` (client.py lines 485-490): if the id has
an active registration, set its event and return True, else return False.
Returns the result together with the registry after the call. -/
def cancel_request (r : Registry) (request_id : String) : Bool × Registry :=
  if regContains r request_id then
    (true, regSetSignal r request_id)
  else
    (false, r)

/-! ### Python values and request dicts -/

/-- A Python value as far as the orchestrator inspects requests. -/
inductive PyVal where
  | vBool : Bool → PyVal
  | vInt : Int → PyVal
  | vStr : String → PyVal
  | vDict : List (String × PyVal) → PyVal

/-- A caller Request: a Python dict of API parameters. -/
abbrev PyDict := List (String × PyVal)

/-- `d.get(k)` / `d[k]` presence-aware lookup. -/
def dictGet : PyDict → String → Option PyVal
  | [], _ => none
  | (k, v) :: r, key => if k = key then some v else dictGet r key

/-- `k in d`. -/
def dictContains (d : PyDict) (k : String) : Bool :=
  (dictGet d k).isSome

/-- `d[k] = v`: replace in place if present, else append. -/
def dictSet : PyDict → String → PyVal → PyDict
  | [], key, v => [(key, v)]
  | (k, w) :: r, key, v =>
    if k = key then (k, v) :: r else (k, w) :: dictSet r key v

/-- The streaming-mode mutation of the request (client.py lines 271-275):
`request["stream"] = True`; insert `stream_options = {}` if missing; then
`request["stream_options"]["include_usage"] = True`. Returns `none` when
`stream_options` is present but not a dict, in which case the Python code
raises a TypeError on the nested assignment. -/
def forceStream (req : PyDict) : Option PyDict :=
  let r1 := dictSet req "stream" (.vBool true)
  let r2 :=
    if dictContains r1 "stream_options" then r1
    else dictSet r1 "stream_options" (.vDict [])
  match dictGet r2 "stream_options" with
  | some (.vDict so) =>
      some (dictSet r2 "stream_options" (.vDict (dictSet so "include_usage" (.vBool true))))
  | _ => none

/-! ### Usage blocks -/

/-- The `prompt_tokens_details` nested dict; `cached_tokens` is `none` when
the key is absent. -/
structure PTDict where
  cached_tokens : Option Int

/-- Python truthiness of the (modelled) details dict: non-empty. -/
def PTDict.truthy (d : PTDict) : Bool := d.cached_tokens.isSome

/-- A `usage` dict as produced by `model_dump()`; each field is `none` when
its key is absent. -/
structure UsageDict where
  prompt_tokens : Option Int
  completion_tokens : Option Int
  /-- outer `none`: key absent; `some none`: key present with value `None`;
  `some (some d)`: the nested dict. -/
  prompt_tokens_details : Option (Option PTDict)

/-- Python truthiness of the (modelled) usage dict: non-empty. -/
def UsageDict.truthy (u : UsageDict) : Bool :=
  u.prompt_tokens.isSome || u.completion_tokens.isSome ||
    u.prompt_tokens_details.isSome

/-- `usage.get("prompt_tokens", 0)`. -/
def usageInput (u : UsageDict) : Int := u.prompt_tokens.getD 0

/-- `usage.get("completion_tokens", 0)`. -/
def usageOutput (u : UsageDict) : Int := u.completion_tokens.getD 0

/-- Cached-token extraction (client.py lines 91-94 / 300-303):
`ptd = usage.get("prompt_tokens_details", {}) or {}`;
`cache = ptd.get("cached_tokens", 0) if ptd else 0`. -/
def usageCached (u : UsageDict) : Int :=
  let ptd : PTDict :=
    match u.prompt_tokens_details with
    | some (some d) => d
    | _ => ⟨none⟩
  if ptd.truthy then ptd.cached_tokens.getD 0 else 0

/-- Python `x or 0` on an int (used in the `total_tokens` computation). -/
def orZero (x : Int) : Int := if x = 0 then 0 else x

/-! ### Completions and chunks -/

/-- The full non-streaming `completion.model_dump()` body: the usage block
(key possibly absent, value possibly `None`) and the rest of the payload,
carried opaquely. -/
structure Completion where
  body : String
  usage : Option (Option UsageDict)

/-- `usage = result_dict.get("usage", {}) or {}` (client.py line 88). -/
def Completion.effUsage (c : Completion) : UsageDict :=
  match c.usage with
  | some (some u) => u
  | _ => ⟨none, none, none⟩

/-- One streamed chunk: its JSON serialization (opaque) and
`chunk_dict.get("usage")` (`none` covers an absent key and `None`). -/
structure Chunk where
  text : String
  usage : Option UsageDict

/-- The truthy usage block of a chunk, if any (`if usage:` at line 290). -/
def Chunk.truthyUsage (c : Chunk) : Option UsageDict :=
  match c.usage with
  | some u => if u.truthy then some u else none
  | none => none

/-! ### Error classifier -/

/-- `OpenAIClient.classify_openai_error` (client.py lines 458-483):
lowercases the error text, then a first-match-wins chain of substring
tests, falling back to the raw text. -/
def classify_openai_error (error_detail : String) : String :=
  let error_str := strLower error_detail
  if strContains error_str "unsupported_country_region_territory" ||
     strContains error_str "country, region, or territory not supported" then
    "OpenAI API is not available in your region. Consider using a VPN or Azure OpenAI service."
  else if strContains error_str "invalid_api_key" ||
          strContains error_str "unauthorized" then
    "Invalid API key. Please check your OPENAI_API_KEY configuration."
  else if strContains error_str "rate_limit" || strContains error_str "quota" then
    "Rate limit exceeded. Please wait and try again, or upgrade your API plan."
  else if strContains error_str "model" &&
          (strContains error_str "not found" ||
           strContains error_str "does not exist") then
    "Model not found. Please check your BIG_MODEL and SMALL_MODEL configuration."
  else if strContains error_str "billing" || strContains error_str "payment" then
    "Billing issue. Please check your OpenAI account billing status."
  else
    error_detail

/-- The classifier's rule table as the spec presents it (§4.4): a list of
case-insensitive substring conditions with their caller-facing messages,
in source order. -/
def classifyRules : List ((String → Bool) × String) :=
  [ (fun low => strContains low "unsupported_country_region_territory" ||
        strContains low "country, region, or territory not supported",
     "OpenAI API is not available in your region. Consider using a VPN or Azure OpenAI service."),
    (fun low => strContains low "invalid_api_key" || strContains low "unauthorized",
     "Invalid API key. Please check your OPENAI_API_KEY configuration."),
    (fun low => strContains low "rate_limit" || strContains low "quota",
     "Rate limit exceeded. Please wait and try again, or upgrade your API plan."),
    (fun low => strContains low "model" &&
        (strContains low "not found" || strContains low "does not exist"),
     "Model not found. Please check your BIG_MODEL and SMALL_MODEL configuration."),
    (fun low => strContains low "billing" || strContains low "payment",
     "Billing issue. Please check your OpenAI account billing status.") ]

/-- First-match-wins evaluation of a rule table against the lowercased
text, falling back to the raw text. -/
def firstMatch (rules : List ((String → Bool) × String)) (low raw : String) : String :=
  match rules with
  | [] => raw
  | (cond, msg) :: rest => if cond low then msg else firstMatch rest low raw

/-! ### Usage records and error taxonomy -/

/-- One row passed to `append_usage_tsv`, as the call sites build it.
`model` keeps the raw `request.get("model", "")` value. -/
structure UsageRecord where
  timestamp : String
  request_id : String
  is_stream : Bool
  model : PyVal
  base_url : String
  api_type : String
  input_tokens : Int
  output_tokens : Int
  cache_read_input_tokens : Int
  total_tokens : Int
  latency_ms : Int
  status : String
  error : String

/-- A raised `fastapi.HTTPException` as the caller observes it. -/
structure HTTPError where
  status_code : Nat
  detail : String

/-- `str(e)` of the internally raised
`HTTPException(status_code=499, detail="Request cancelled by client")`
(starlette renders an HTTPException as "status: detail"). -/
def cancelledExcStr : String := "499: Request cancelled by client"

/-- Stands for `str(e)` of the TypeError raised by
`request["stream_options"]["include_usage"] = True` when `stream_options`
is not a dict; its exact text is immaterial. -/
def typeErrorStr : String := "'NoneType' object does not support item assignment"

/-- The typed upstream failures the orchestrator's `except` chain
distinguishes: `AuthenticationError`, `RateLimitError`, `BadRequestError`,
`APIError` (whose `status_code` attribute may be missing), and any other
exception. Each carries `str(e)`. -/
inductive UpstreamError where
  | auth (msg : String)
  | rateLimit (msg : String)
  | badRequest (msg : String)
  | api (status_code : Option Nat) (msg : String)
  | other (msg : String)

/-- Outcome of the non-streaming upstream call `Send(request)`. -/
inductive UpstreamResult where
  | success (c : Completion)
  | failure (e : UpstreamError)

/-- The error tag written into the record's `error` column:
`f"{category}:{str(e)}"`. -/
def UpstreamError.tag : UpstreamError → String
  | .auth m => "auth:" ++ m
  | .rateLimit m => "ratelimit:" ++ m
  | .badRequest m => "badrequest:" ++ m
  | .api _ m => "api:" ++ m
  | .other m => "unexpected:" ++ m

/-- The HTTPException each `except` block re-raises: status 401/429/400 for
the typed errors, `getattr(e, "status_code", 500)` for `APIError`, all with
`classify_openai_error(str(e))` as detail; status 500 with
`f"Unexpected error: {str(e)}"` for anything else. -/
def UpstreamError.toHTTP : UpstreamError → HTTPError
  | .auth m => ⟨401, classify_openai_error m⟩
  | .rateLimit m => ⟨429, classify_openai_error m⟩
  | .badRequest m => ⟨400, classify_openai_error m⟩
  | .api sc m => ⟨sc.getD 500, classify_openai_error m⟩
  | .other m => ⟨500, "Unexpected error: " ++ m⟩

/-- The zero-token error row every failure handler appends (client.py
lines 130-146 and the parallel blocks): fresh timestamp, all token counts
0, status "error", the tagged error string. -/
def errorRecord (now reqId : String) (isStream : Bool) (model : PyVal)
    (base_url api_type : String) (latency : Int) (tag : String) : UsageRecord :=
  { timestamp := now, request_id := reqId, is_stream := isStream,
    model := model, base_url := base_url, api_type := api_type,
    input_tokens := 0, output_tokens := 0, cache_read_input_tokens := 0,
    total_tokens := 0, latency_ms := latency, status := "error", error := tag }

/-- The success row (client.py lines 102-118 / 308-324): start timestamp,
extracted token counts, `total_tokens = (input or 0) + (output or 0)`,
status "success", empty error. -/
def successRecord (startTs reqId : String) (isStream : Bool) (model : PyVal)
    (base_url api_type : String) (u : UsageDict) (latency : Int) : UsageRecord :=
  { timestamp := startTs, request_id := reqId, is_stream := isStream,
    model := model, base_url := base_url, api_type := api_type,
    input_tokens := usageInput u, output_tokens := usageOutput u,
    cache_read_input_tokens := usageCached u,
    total_tokens := orZero (usageInput u) + orZero (usageOutput u),
    latency_ms := latency, status := "success", error := "" }

/-! ### Non-streaming orchestration -/

/-- `request_id` after Python truthiness: `if request_id:` is false for
`None` and for the empty string. -/
def truthyId : Option String → Option String
  | some id => if id.isEmpty then none else some id
  | none => none

/-- `request_id or ""` as written into the record. -/
def reqIdField : Option String → String
  | some id => if id.isEmpty then "" else id
  | none => ""

/-- The `finally` block shared by both orchestration paths (client.py
lines 250-253 / 453-456): `if request_id and request_id in
self.active_requests: del self.active_requests[request_id]`. -/
def releaseRegistration (idT : Option String) (r : Registry) : Registry :=
  match idT with
  | some id => if regContains r id then regErase r id else r
  | none => r

/-- What one orchestration call produces: the caller-visible outcome
(returned body or raised HTTPException), the usage rows appended in order,
and the registry after the `finally` cleanup. -/
structure CCOutcome where
  result : Except HTTPError Completion
  records : List UsageRecord
  registry : Registry

/-- `OpenAIClient.create_chat_completion` (client.py lines 38-253).
Inputs resolving the environment: `reg` is the registry at entry;
`cancelBeforeRace` says whether a concurrent `cancel_request(request_id)`
ran between registration and the `asyncio.wait` race join point;
`upstream` is the upstream call's outcome; `start_time_str` / `now_str`
are the two timestamps and `latency` the measured elapsed milliseconds.

Control flow embedded: register an unset event for a truthy id; at the
race, a set signal wins and raises `HTTPException(499, ...)` — which the
blanket `except Exception` clause then catches (fastapi's HTTPException is
an `Exception` but none of the openai error types), appending an
`unexpected:`-tagged error row and re-raising status 500; each typed
upstream failure appends its tagged error row and raises its mapped
HTTPException; success extracts usage, appends the success row and returns
the body; `finally` deletes the registration. -/
def create_chat_completion (base_url api_type : String) (reg : Registry)
    (request : PyDict) (request_id : Option String)
    (cancelBeforeRace : Bool) (upstream : UpstreamResult)
    (start_time_str now_str : String) (latency : Int) : CCOutcome :=
  let idT := truthyId request_id
  let reg1 := match idT with
    | some id => regInsert reg id false
    | none => reg
  let reg2 := match idT with
    | some id => if cancelBeforeRace then (cancel_request reg1 id).2 else reg1
    | none => reg1
  let modelV := (dictGet request "model").getD (.vStr "")
  let cancelled := match idT with
    | some id => (regLookup reg2 id).getD false
    | none => false
  if cancelled then
    { result := .error ⟨500, "Unexpected error: " ++ cancelledExcStr⟩,
      records := [errorRecord now_str (reqIdField request_id) false modelV
        base_url api_type latency ("unexpected:" ++ cancelledExcStr)],
      registry := releaseRegistration idT reg2 }
  else
    match upstream with
    | .success c =>
      { result := .ok c,
        records := [successRecord start_time_str (reqIdField request_id) false
          modelV base_url api_type c.effUsage latency],
        registry := releaseRegistration idT reg2 }
    | .failure e =>
      { result := .error e.toHTTP,
        records := [errorRecord now_str (reqIdField request_id) false modelV
          base_url api_type latency e.tag],
        registry := releaseRegistration idT reg2 }

/-! ### Streaming orchestration -/

/-- Outcome of opening and consuming the upstream stream: either the
`create(**request)` call itself fails, or it yields `chunks` and then
either ends cleanly or raises `midErr` while awaiting the next chunk. -/
inductive StreamUpstream where
  | openFail (e : UpstreamError)
  | chunksThen (chunks : List Chunk) (midErr : Option UpstreamError)

/-- The per-chunk loop (client.py lines 280-293): before yielding each
received chunk, check the cancellation signal (observed set at checks with
index ≥ `cancelBefore`, when a registration is active); on a set signal
raise (returning `true`); otherwise track the last truthy usage block and
emit `"data: " ++ json`. Returns the emitted events, the final last-known
usage, and whether cancellation fired. -/
def streamLoop (active : Bool) (cancelBefore : Option Nat) :
    Nat → UsageDict → List Chunk → List String × UsageDict × Bool
  | _, last, [] => ([], last, false)
  | idx, last, c :: cs =>
    if active && (match cancelBefore with | some n => decide (n ≤ idx) | none => false) then
      ([], last, true)
    else
      let last' := match c.truthyUsage with
        | some u => u
        | none => last
      let (evs, lastF, canc) := streamLoop active cancelBefore (idx + 1) last' cs
      (("data: " ++ c.text) :: evs, lastF, canc)

/-- The initial `last_usage` dict (client.py line 270). -/
def initLastUsage : UsageDict := ⟨some 0, some 0, some (some ⟨none⟩)⟩

/-- What one fully-consumed streaming call produces: the yielded events,
the exception propagated to the consumer (`none` on clean completion), the
appended usage rows, and the registry after `finally`. -/
structure StreamOutcome where
  events : List String
  error : Option HTTPError
  records : List UsageRecord
  registry : Registry

/-- `OpenAIClient.create_chat_completion_stream` (client.py lines 255-456),
for a consumer that drives the generator to its end. After registration,
the request is forced into streaming mode (a non-dict `stream_options`
raises a TypeError, swallowed by the blanket handler); the upstream stream
is opened and consumed chunk by chunk with the boundary cancellation check;
a clean end appends `"data: [DONE]"` and the success row from the last
known usage; every failure (open failure, mid-stream failure, cancellation
— the latter re-wrapped to status 500 by the blanket `except Exception`)
appends one tagged error row and propagates its HTTPException; `finally`
deletes the registration. -/
def create_chat_completion_stream (base_url api_type : String) (reg : Registry)
    (request : PyDict) (request_id : Option String)
    (cancelBefore : Option Nat) (upstream : StreamUpstream)
    (start_time_str now_str : String) (latency : Int) : StreamOutcome :=
  let idT := truthyId request_id
  let reg1 := match idT with
    | some id => regInsert reg id false
    | none => reg
  match forceStream request with
  | none =>
    { events := [],
      error := some ⟨500, "Unexpected error: " ++ typeErrorStr⟩,
      records := [errorRecord now_str (reqIdField request_id) true
        ((dictGet request "model").getD (.vStr "")) base_url api_type latency
        ("unexpected:" ++ typeErrorStr)],
      registry := releaseRegistration idT reg1 }
  | some reqS =>
    let modelV := (dictGet reqS "model").getD (.vStr "")
    match upstream with
    | .openFail e =>
      { events := [],
        error := some e.toHTTP,
        records := [errorRecord now_str (reqIdField request_id) true modelV
          base_url api_type latency e.tag],
        registry := releaseRegistration idT reg1 }
    | .chunksThen chunks midErr =>
      let (evs, lastU, canc) := streamLoop idT.isSome cancelBefore 0 initLastUsage chunks
      if canc then
        { events := evs,
          error := some ⟨500, "Unexpected error: " ++ cancelledExcStr⟩,
          records := [errorRecord now_str (reqIdField request_id) true modelV
            base_url api_type latency ("unexpected:" ++ cancelledExcStr)],
          registry := releaseRegistration idT reg1 }
      else
        match midErr with
        | some e =>
          { events := evs,
            error := some e.toHTTP,
            records := [errorRecord now_str (reqIdField request_id) true modelV
              base_url api_type latency e.tag],
            registry := releaseRegistration idT reg1 }
        | none =>
          { events := evs ++ ["data: [DONE]"],
            error := none,
            records := [successRecord start_time_str (reqIdField request_id) true
              modelV base_url api_type lastU latency],
            registry := releaseRegistration idT reg1 }

/-! ### Usage recorder (`src/core/usage_stats.py`) -/

/-- The fixed TSV column set (usage_stats.py lines 9-23). -/
def TSV_HEADER_COLUMNS : List String :=
  [ "timestamp", "request_id", "is_stream", "model", "base_url", "api_type",
    "input_tokens", "output_tokens", "cache_read_input_tokens",
    "total_tokens", "latency_ms", "status", "error" ]

/-- `str(value).replace("\t", " ").replace("\n", " ")` (usage_stats.py
line 55), on the character sequence of the stringified value. -/
def sanitizeValue (s : List Char) : List Char :=
  (s.map fun c => if c = '\t' then ' ' else c).map fun c => if c = '\n' then ' ' else c

/-- The line `append_usage_tsv` writes for a record (usage_stats.py lines
49-57): for each header column, `record.get(key, "")` with `None` mapped
to `""`, stringified and sanitized; the values joined by tabs and
terminated by one newline. The record is abstracted as the map from key to
the stringified value (absent keys yield `none`). -/
def usageLineChars (record : String → Option String) : List Char :=
  List.intercalate ['\t']
    ((TSV_HEADER_COLUMNS.map fun k => ((record k).getD "").toList).map sanitizeValue)
    ++ ['\n']

/-! ### Helper lemmas -/

theorem orZero_eq (x : Int) : orZero x = x := by
  unfold orZero; split <;> omega

theorem regLookup_insert_self (r : Registry) (id : String) (v : Bool) :
    regLookup (regInsert r id v) id = some v := by
  induction r with
  | nil => simp [regInsert, regLookup]
  | cons e r ih =>
    obtain ⟨k, w⟩ := e
    by_cases hk : k = id
    · simp [regInsert, regLookup, hk]
    · simp [regInsert, regLookup, hk, ih]

theorem regLookup_setSignal_self (r : Registry) (id : String) :
    regLookup (regSetSignal r id) id = (regLookup r id).map (fun _ => true) := by
  induction r with
  | nil => simp [regSetSignal, regLookup]
  | cons e r ih =>
    obtain ⟨k, w⟩ := e
    by_cases hk : k = id
    · simp [regSetSignal, regLookup, hk]
    · simp [regSetSignal, regLookup, hk, ih]

theorem regLookup_setSignal_ne (r : Registry) (id j : String) (h : j ≠ id) :
    regLookup (regSetSignal r id) j = regLookup r j := by
  induction r with
  | nil => simp [regSetSignal, regLookup]
  | cons e r ih =>
    obtain ⟨k, w⟩ := e
    have hij : id ≠ j := fun hh => h hh.symm
    by_cases hk : k = id
    · simp [regSetSignal, regLookup, hk, hij, ih]
    · by_cases hkj : k = j
      · simp [regSetSignal, regLookup, hk, hkj, h, ih]
      · simp [regSetSignal, regLookup, hk, hkj, ih]

theorem regLookup_erase_self (r : Registry) (id : String) :
    regLookup (regErase r id) id = none := by
  induction r with
  | nil => simp [regErase, regLookup]
  | cons e r ih =>
    obtain ⟨k, w⟩ := e
    by_cases hk : k = id
    · simpa [regErase, hk] using ih
    · simpa [regErase, regLookup, hk] using ih

theorem regErase_of_absent (r : Registry) (id : String)
    (h : regLookup r id = none) : regErase r id = r := by
  induction r with
  | nil => simp [regErase]
  | cons e r ih =>
    obtain ⟨k, w⟩ := e
    by_cases hk : k = id
    · simp [regLookup, hk] at h
    · simp only [regLookup, hk, if_neg hk] at h
      simp [regErase, hk, ih h]

theorem dictGet_dictSet_self (d : PyDict) (k : String) (v : PyVal) :
    dictGet (dictSet d k v) k = some v := by
  induction d with
  | nil => simp [dictSet, dictGet]
  | cons e d ih =>
    obtain ⟨k0, w⟩ := e
    by_cases hk : k0 = k
    · simp [dictSet, dictGet, hk]
    · simp [dictSet, dictGet, hk, ih]

theorem dictGet_dictSet_ne (d : PyDict) (k k' : String) (v : PyVal)
    (h : k' ≠ k) : dictGet (dictSet d k v) k' = dictGet d k' := by
  induction d with
  | nil =>
    have hk : k ≠ k' := fun hh => h hh.symm
    simp [dictSet, dictGet, hk]
  | cons e d ih =>
    obtain ⟨k0, w⟩ := e
    by_cases hk : k0 = k
    · subst hk
      have hk0 : k0 ≠ k' := fun hh => h hh.symm
      simp [dictSet, dictGet, hk0]
    · by_cases hk' : k0 = k'
      · simp [dictSet, dictGet, hk, hk', h]
      · simp [dictSet, dictGet, hk, hk', ih]

/-! ### Claim theorems -/

/-- C6. The error classifier is a pure total function on the error text:
it equals first-match-wins evaluation of the rule table against the
lowercased (case-insensitive) input, and when no rule matches it returns
the raw error text verbatim. -/
theorem classify_openai_error_first_match (s : String) :
    classify_openai_error s = firstMatch classifyRules (strLower s) s ∧
    ((classifyRules.all fun r => !(r.1 (strLower s))) = true →
      classify_openai_error s = s) := by
  have hfm : classify_openai_error s = firstMatch classifyRules (strLower s) s := rfl
  refine ⟨hfm, fun h => ?_⟩
  simp only [classifyRules, List.all_cons, List.all_nil, Bool.and_eq_true,
    Bool.not_eq_true'] at h
  obtain ⟨h1, h2, h3, h4, h5, -⟩ := h
  rw [hfm]
  simp [classifyRules, firstMatch, h1, h2, h3, h4, h5]

/-- Witness for C6's hypothesis-bearing conjunct at a concrete input no
rule matches. -/
theorem classify_openai_error_first_match_witness :
    classify_openai_error "boom" = "boom" :=
  (classify_openai_error_first_match "boom").2 (by decide)

/-- C7. `cancel_request` returns whether an active registration exists;
when one exists it sets exactly that registration's signal (all other
entries unchanged); when none exists it leaves the registry untouched. -/
theorem cancel_request_lookup_spec (r : Registry) (id : String) :
    (cancel_request r id).1 = (regLookup r id).isSome ∧
    regLookup (cancel_request r id).2 id = (regLookup r id).map (fun _ => true) ∧
    (∀ j, j ≠ id → regLookup (cancel_request r id).2 j = regLookup r j) ∧
    (regLookup r id = none → (cancel_request r id).2 = r) := by
  unfold cancel_request regContains
  by_cases h : (regLookup r id).isSome
  · refine ⟨by simp [h], ?_, ?_, ?_⟩
    · simp only [h, if_true]
      exact regLookup_setSignal_self r id
    · intro j hj
      simp only [h, if_true]
      exact regLookup_setSignal_ne r id j hj
    · intro hn
      rw [hn] at h
      simp at h
  · have hn : regLookup r id = none := by
      cases hl : regLookup r id with
      | none => rfl
      | some v => rw [hl] at h; simp at h
    refine ⟨by simp [h], ?_, ?_, ?_⟩
    · simp [h, hn]
    · intro j _
      simp [h]
    · intro _
      simp [h]

/-- Witness for C7 at a concrete registry: cancelling "a" in a registry
holding an unset signal for "a" reports true, sets "a"'s signal, and
leaves "b"'s entry unchanged. -/
theorem cancel_request_lookup_spec_witness :
    (cancel_request [("a", false), ("b", false)] "a").1 = true ∧
    regLookup (cancel_request [("a", false), ("b", false)] "a").2 "a" = some true ∧
    regLookup (cancel_request [("a", false), ("b", false)] "a").2 "b" = some false := by
  refine ⟨?_, ?_, ?_⟩
  · rw [(cancel_request_lookup_spec [("a", false), ("b", false)] "a").1]
    decide
  · rw [(cancel_request_lookup_spec [("a", false), ("b", false)] "a").2.1]
    decide
  · rw [(cancel_request_lookup_spec [("a", false), ("b", false)] "a").2.2.1 "b" (by decide)]
    decide

theorem tab_not_mem_sanitizeValue (s : List Char) : '\t' ∉ sanitizeValue s := by
  intro h
  simp only [sanitizeValue, List.map_map, List.mem_map, Function.comp] at h
  obtain ⟨c, -, hc⟩ := h
  by_cases h1 : c = '\t' <;> by_cases h2 : c = '\n' <;> simp [h1, h2] at hc

theorem newline_not_mem_sanitizeValue (s : List Char) : '\n' ∉ sanitizeValue s := by
  intro h
  simp only [sanitizeValue, List.map_map, List.mem_map, Function.comp] at h
  obtain ⟨c, -, hc⟩ := h
  by_cases h1 : c = '\t' <;> by_cases h2 : c = '\n' <;> simp [h1, h2] at hc

theorem mem_intercalate_sep {α : Type} {c sep : α} :
    ∀ ls : List (List α), c ∈ List.intercalate [sep] ls → c = sep ∨ ∃ l ∈ ls, c ∈ l := by
  intro ls
  induction ls with
  | nil => simp [List.intercalate]
  | cons a tl ih =>
    cases tl with
    | nil =>
      intro h
      simp only [List.intercalate, List.intersperse_singleton, List.flatten] at h
      exact Or.inr ⟨a, by simp, by simpa using h⟩
    | cons b tl2 =>
      intro h
      have hstep : List.intercalate [sep] (a :: b :: tl2)
          = a ++ sep :: List.intercalate [sep] (b :: tl2) := by
        simp [List.intercalate, List.intersperse_cons_cons]
      rw [hstep] at h
      rcases List.mem_append.mp h with ha | hrest
      · exact Or.inr ⟨a, by simp, ha⟩
      · rcases List.mem_cons.mp hrest with rfl | hr
        · exact Or.inl rfl
        · rcases ih hr with hc | ⟨l, hl, hml⟩
          · exact Or.inl hc
          · exact Or.inr ⟨l, by simp [List.mem_cons.mp hl], hml⟩

/-- C8. For every record, the line `append_usage_tsv` writes is the 13
sanitized column values joined by tabs: splitting the line body on tabs
recovers exactly the 13 sanitized fields (embedded tabs and newlines
having been replaced by spaces), and the line ends in its single
newline. -/
theorem append_usage_tsv_thirteen_fields (record : String → Option String) :
    ((usageLineChars record).dropLast).splitOn '\t'
      = (TSV_HEADER_COLUMNS.map fun k => ((record k).getD "").toList).map sanitizeValue ∧
    (((usageLineChars record).dropLast).splitOn '\t').length = 13 ∧
    (usageLineChars record).getLast? = some '\n' ∧
    '\n' ∉ (usageLineChars record).dropLast := by
  set vals := (TSV_HEADER_COLUMNS.map fun k => ((record k).getD "").toList).map sanitizeValue with hv
  have hvals : ∀ l ∈ vals, '\t' ∉ l := by
    intro l hl
    rw [hv] at hl
    simp only [List.mem_map] at hl
    obtain ⟨s, -, rfl⟩ := hl
    exact tab_not_mem_sanitizeValue s
  have hne : vals ≠ [] := by
    rw [hv]
    simp [TSV_HEADER_COLUMNS]
  have hdrop : (usageLineChars record).dropLast = List.intercalate ['\t'] vals := by
    simp [usageLineChars, hv]
  have hsplit : (List.intercalate ['\t'] vals).splitOn '\t' = vals :=
    List.splitOn_intercalate vals '\t' hvals hne
  refine ⟨by rw [hdrop, hsplit], by rw [hdrop, hsplit, hv]; simp [TSV_HEADER_COLUMNS], ?_, ?_⟩
  · simp [usageLineChars]
  · rw [hdrop]
    intro h
    rcases mem_intercalate_sep vals h with hc | ⟨l, hl, hml⟩
    · simp at hc
    · rw [hv] at hl
      simp only [List.mem_map] at hl
      obtain ⟨s, -, rfl⟩ := hl
      exact newline_not_mem_sanitizeValue s hml

/-- Branch shape of the non-streaming orchestrator when no cancellation
raced in: the race is lost by the (unset) signal, so the upstream outcome
decides everything. -/
theorem cc_eq_no_cancel (base_url api_type : String) (reg : Registry)
    (request : PyDict) (request_id : Option String) (up : UpstreamResult)
    (ts now : String) (lat : Int) :
    create_chat_completion base_url api_type reg request request_id false up ts now lat =
      (match up with
      | .success c =>
        { result := .ok c,
          records := [successRecord ts (reqIdField request_id) false
            ((dictGet request "model").getD (.vStr "")) base_url api_type c.effUsage lat],
          registry := releaseRegistration (truthyId request_id)
            (match truthyId request_id with
              | some id => regInsert reg id false
              | none => reg) }
      | .failure e =>
        { result := .error e.toHTTP,
          records := [errorRecord now (reqIdField request_id) false
            ((dictGet request "model").getD (.vStr "")) base_url api_type lat e.tag],
          registry := releaseRegistration (truthyId request_id)
            (match truthyId request_id with
              | some id => regInsert reg id false
              | none => reg) }) := by
  rcases hid : truthyId request_id with _ | id <;>
    cases up <;>
    simp [create_chat_completion, hid, regLookup_insert_self]

/-- Branch shape of the non-streaming orchestrator when `cancel_request`
ran for the registered id before the race join point: the signal wins, the
raised 499 HTTPException is swallowed by the blanket `except Exception`
handler, and the call ends as a 500 with an `unexpected:`-tagged row. -/
theorem cc_eq_cancelled (base_url api_type : String) (reg : Registry)
    (request : PyDict) (request_id : Option String) (id : String)
    (up : UpstreamResult) (ts now : String) (lat : Int)
    (hid : truthyId request_id = some id) :
    create_chat_completion base_url api_type reg request request_id true up ts now lat =
      { result := .error ⟨500, "Unexpected error: " ++ cancelledExcStr⟩,
        records := [errorRecord now (reqIdField request_id) false
          ((dictGet request "model").getD (.vStr "")) base_url api_type lat
          ("unexpected:" ++ cancelledExcStr)],
        registry := releaseRegistration (truthyId request_id)
          (cancel_request (regInsert reg id false) id).2 } := by
  have hcon : regContains (regInsert reg id false) id = true := by
    simp [regContains, regLookup_insert_self]
  have hlook : regLookup (cancel_request (regInsert reg id false) id).2 id = some true := by
    simp only [cancel_request, hcon, if_true]
    rw [regLookup_setSignal_self, regLookup_insert_self]
    rfl
  simp [create_chat_completion, hid, hlook]

/-- C3. A non-streaming request that completes successfully (no
cancellation raced in) returns the full completion body and appends
exactly one usage record, whose status is "success", whose input/output
token counts come from the completion's usage block, whose cached count
comes from the nested details field defaulting to 0, and whose
total_tokens is the sum of input and output tokens. -/
theorem nonstream_success_usage_record (base_url api_type : String)
    (reg : Registry) (request : PyDict) (request_id : Option String)
    (c : Completion) (ts now : String) (lat : Int) :
    (create_chat_completion base_url api_type reg request request_id false
      (.success c) ts now lat).result = Except.ok c ∧
    ∃ r, (create_chat_completion base_url api_type reg request request_id false
        (.success c) ts now lat).records = [r] ∧
      r.status = "success" ∧
      r.input_tokens = usageInput c.effUsage ∧
      r.output_tokens = usageOutput c.effUsage ∧
      r.cache_read_input_tokens = usageCached c.effUsage ∧
      r.total_tokens = r.input_tokens + r.output_tokens := by
  rw [cc_eq_no_cancel]
  exact ⟨rfl, _, rfl, rfl, rfl, rfl, rfl, by simp [successRecord, orZero_eq]⟩

/-- C10. When the upstream completion's usage block is absent or null, the
non-streaming call still succeeds — the full body is returned — and the
single success record carries all-zero token counts. -/
theorem nonstream_missing_usage_zero_record (base_url api_type : String)
    (reg : Registry) (request : PyDict) (request_id : Option String)
    (c : Completion) (ts now : String) (lat : Int)
    (h : c.usage = none ∨ c.usage = some none) :
    (create_chat_completion base_url api_type reg request request_id false
      (.success c) ts now lat).result = Except.ok c ∧
    ∃ r, (create_chat_completion base_url api_type reg request request_id false
        (.success c) ts now lat).records = [r] ∧
      r.status = "success" ∧ r.input_tokens = 0 ∧ r.output_tokens = 0 ∧
      r.cache_read_input_tokens = 0 ∧ r.total_tokens = 0 := by
  have hu : c.effUsage = ⟨none, none, none⟩ := by
    rcases h with h | h <;> simp [Completion.effUsage, h]
  rw [cc_eq_no_cancel]
  refine ⟨rfl, _, rfl, rfl, ?_, ?_, ?_, ?_⟩ <;>
    simp [successRecord, hu, usageInput, usageOutput, usageCached,
      PTDict.truthy, orZero]

/-- Witness for C10: a completion whose usage key is absent yields the
zeroed success record. -/
theorem nonstream_missing_usage_zero_record_witness :
    (create_chat_completion "http://u" "openai" [] [] (some "rid")
      false (.success ⟨"payload", none⟩) "t0" "t1" 7).result =
        Except.ok ⟨"payload", none⟩ ∧
    ∃ r, (create_chat_completion "http://u" "openai" [] [] (some "rid")
        false (.success ⟨"payload", none⟩) "t0" "t1" 7).records = [r] ∧
      r.status = "success" ∧ r.input_tokens = 0 ∧ r.output_tokens = 0 ∧
      r.cache_read_input_tokens = 0 ∧ r.total_tokens = 0 :=
  nonstream_missing_usage_zero_record "http://u" "openai" [] [] (some "rid")
    ⟨"payload", none⟩ "t0" "t1" 7 (Or.inl rfl)

/-- The `<category>` part of the tagged error string. -/
def UpstreamError.category : UpstreamError → String
  | .auth _ => "auth"
  | .rateLimit _ => "ratelimit"
  | .badRequest _ => "badrequest"
  | .api _ _ => "api"
  | .other _ => "unexpected"

/-- The raw `str(e)` part of the tagged error string. -/
def UpstreamError.rawMessage : UpstreamError → String
  | .auth m => m
  | .rateLimit m => m
  | .badRequest m => m
  | .api _ m => m
  | .other m => m

theorem UpstreamError.tag_eq (e : UpstreamError) :
    e.tag = e.category ++ ":" ++ e.rawMessage := by
  cases e <;> rfl

/-- C4. Every failing non-streaming request — any classified or
unclassified upstream failure, and likewise a raced-in cancellation —
appends exactly one error record with all token counts zero, status
"error", and an error field of the form `<category>:<rawmessage>`; an
upstream rate-limit failure in particular raises status 429 and its record
begins with "ratelimit:". -/
theorem failure_error_record_tagged (base_url api_type : String)
    (reg : Registry) (request : PyDict) (request_id : Option String)
    (id : String) (e : UpstreamError) (up : UpstreamResult)
    (m ts now : String) (lat : Int) :
    (∃ r, (create_chat_completion base_url api_type reg request request_id false
        (.failure e) ts now lat).records = [r] ∧
      r.input_tokens = 0 ∧ r.output_tokens = 0 ∧
      r.cache_read_input_tokens = 0 ∧ r.total_tokens = 0 ∧
      r.status = "error" ∧ r.error = e.category ++ ":" ++ e.rawMessage) ∧
    (truthyId request_id = some id →
      ∃ r, (create_chat_completion base_url api_type reg request request_id true
          up ts now lat).records = [r] ∧
        r.input_tokens = 0 ∧ r.output_tokens = 0 ∧
        r.cache_read_input_tokens = 0 ∧ r.total_tokens = 0 ∧
        r.status = "error" ∧ r.error = "unexpected:" ++ cancelledExcStr) ∧
    ((create_chat_completion base_url api_type reg request request_id false
        (.failure (.rateLimit m)) ts now lat).result =
      Except.error ⟨429, classify_openai_error m⟩ ∧
     ∃ r, (create_chat_completion base_url api_type reg request request_id false
          (.failure (.rateLimit m)) ts now lat).records = [r] ∧
        r.status = "error" ∧ r.error = "ratelimit:" ++ m) := by
  refine ⟨?_, fun hid => ?_, ?_, ?_⟩
  · rw [cc_eq_no_cancel]
    exact ⟨_, rfl, rfl, rfl, rfl, rfl, rfl, (UpstreamError.tag_eq e) ▸ rfl⟩
  · rw [cc_eq_cancelled base_url api_type reg request request_id id up ts now lat hid]
    exact ⟨_, rfl, rfl, rfl, rfl, rfl, rfl, rfl⟩
  · rw [cc_eq_no_cancel]
    rfl
  · rw [cc_eq_no_cancel]
    exact ⟨_, rfl, rfl, rfl⟩

/-- Witness for C4 at concrete inputs: an unclassified failure and, for a
registered id cancelled before the race, the cancellation row; plus the
429 rate-limit outcome. -/
theorem failure_error_record_tagged_witness :
    (∃ r, (create_chat_completion "http://u" "openai" [] [] (some "r1") false
        (.failure (.other "boom")) "t0" "t1" 3).records = [r] ∧
      r.input_tokens = 0 ∧ r.output_tokens = 0 ∧
      r.cache_read_input_tokens = 0 ∧ r.total_tokens = 0 ∧
      r.status = "error" ∧
      r.error = UpstreamError.category (.other "boom") ++ ":" ++
        UpstreamError.rawMessage (.other "boom")) ∧
    (∃ r, (create_chat_completion "http://u" "openai" [] [] (some "r1") true
        (.failure (.other "boom")) "t0" "t1" 3).records = [r] ∧
      r.input_tokens = 0 ∧ r.output_tokens = 0 ∧
      r.cache_read_input_tokens = 0 ∧ r.total_tokens = 0 ∧
      r.status = "error" ∧ r.error = "unexpected:" ++ cancelledExcStr) := by
  have h := failure_error_record_tagged "http://u" "openai" [] [] (some "r1")
    "r1" (.other "boom") (.failure (.other "boom")) "rate_limit" "t0" "t1" 3
  exact ⟨h.1, h.2.1 rfl⟩

theorem regLookup_releaseRegistration_self (r : Registry) (id : String) :
    regLookup (releaseRegistration (some id) r) id = none := by
  by_cases h : regContains r id = true
  · simp [releaseRegistration, h, regLookup_erase_self]
  · cases hl : regLookup r id with
    | none => simp [releaseRegistration, regContains, hl]
    | some v => simp [regContains, hl] at h

theorem cc_records_length (base_url api_type : String) (reg : Registry)
    (request : PyDict) (request_id : Option String) (cb : Bool)
    (up : UpstreamResult) (ts now : String) (lat : Int) :
    (create_chat_completion base_url api_type reg request request_id cb up
      ts now lat).records.length = 1 := by
  simp only [create_chat_completion]
  repeat' split
  all_goals rfl

theorem stream_records_length (base_url api_type : String) (reg : Registry)
    (request : PyDict) (request_id : Option String) (cbs : Option Nat)
    (sup : StreamUpstream) (ts now : String) (lat : Int) :
    (create_chat_completion_stream base_url api_type reg request request_id
      cbs sup ts now lat).records.length = 1 := by
  simp only [create_chat_completion_stream]
  repeat' split
  all_goals rfl

theorem cc_registry_released (base_url api_type : String) (reg : Registry)
    (request : PyDict) (request_id : Option String) (cb : Bool)
    (up : UpstreamResult) (ts now : String) (lat : Int) (id : String)
    (hid : truthyId request_id = some id) :
    regLookup (create_chat_completion base_url api_type reg request request_id
      cb up ts now lat).registry id = none := by
  simp only [create_chat_completion, hid]
  repeat' split
  all_goals first
    | rfl
    | simp [regLookup_releaseRegistration_self]

theorem stream_registry_released (base_url api_type : String) (reg : Registry)
    (request : PyDict) (request_id : Option String) (cbs : Option Nat)
    (sup : StreamUpstream) (ts now : String) (lat : Int) (id : String)
    (hid : truthyId request_id = some id) :
    regLookup (create_chat_completion_stream base_url api_type reg request
      request_id cbs sup ts now lat).registry id = none := by
  simp only [create_chat_completion_stream, hid]
  repeat' split
  all_goals first
    | rfl
    | simp [regLookup_releaseRegistration_self]

/-- C2. Every orchestration call that reaches a terminal state — success,
cancellation, or any error, on either path — appends exactly one usage
record and leaves no registration behind for its id; and releasing an
absent registration is a no-op. -/
theorem terminal_single_record_and_release (base_url api_type : String)
    (reg : Registry) (request : PyDict) (request_id : Option String)
    (cb : Bool) (up : UpstreamResult) (cbs : Option Nat)
    (sup : StreamUpstream) (ts now : String) (lat : Int) (id : String) :
    (create_chat_completion base_url api_type reg request request_id cb up
      ts now lat).records.length = 1 ∧
    (create_chat_completion_stream base_url api_type reg request request_id
      cbs sup ts now lat).records.length = 1 ∧
    (truthyId request_id = some id →
      regLookup (create_chat_completion base_url api_type reg request
        request_id cb up ts now lat).registry id = none) ∧
    (truthyId request_id = some id →
      regLookup (create_chat_completion_stream base_url api_type reg request
        request_id cbs sup ts now lat).registry id = none) ∧
    (regLookup reg id = none → regErase reg id = reg) :=
  ⟨cc_records_length base_url api_type reg request request_id cb up ts now lat,
   stream_records_length base_url api_type reg request request_id cbs sup ts now lat,
   fun h => cc_registry_released base_url api_type reg request request_id cb up ts now lat id h,
   fun h => stream_registry_released base_url api_type reg request request_id cbs sup ts now lat id h,
   fun h => regErase_of_absent reg id h⟩

/-- Witness for C2 at a concrete call: after a registered non-streaming
call and a registered streaming call finish, the id is gone from the
registry, and erasing an id that is not present leaves the registry
unchanged. -/
theorem terminal_single_record_and_release_witness :
    regLookup (create_chat_completion "http://u" "openai" [("x", false)] []
      (some "w1") false (.success ⟨"b", none⟩) "t0" "t1" 1).registry "w1" = none ∧
    regLookup (create_chat_completion_stream "http://u" "openai" [("x", false)] []
      (some "w1") none (.chunksThen [] none) "t0" "t1" 1).registry "w1" = none ∧
    regErase [("x", false)] "w1" = [("x", false)] := by
  have h := terminal_single_record_and_release "http://u" "openai" [("x", false)] []
    (some "w1") false (.success ⟨"b", none⟩) none (.chunksThen [] none)
    "t0" "t1" 1 "w1"
  exact ⟨h.2.2.1 rfl, h.2.2.2.1 rfl, h.2.2.2.2 (by decide)⟩

theorem getLast?_getD_cons {α : Type} (u d : α) (l : List α) :
    ((u :: l).getLast?).getD d = (l.getLast?).getD u := by
  cases l with
  | nil => rfl
  | cons v l =>
    rw [List.getLast?_cons_cons]
    rw [List.getLast?_eq_getLast (v :: l) (by simp)]
    rfl

/-- With no cancellation observed, the chunk loop emits every chunk in
order as a `data:` event and its final last-known usage is the usage block
of the last chunk that carried a truthy one (or the initial value when
none did). -/
theorem streamLoop_no_cancel (active : Bool) (idx : Nat) (last : UsageDict)
    (cs : List Chunk) :
    streamLoop active none idx last cs =
      (cs.map (fun c => "data: " ++ c.text),
       ((cs.filterMap Chunk.truthyUsage).getLast?).getD last,
       false) := by
  induction cs generalizing idx last with
  | nil => simp [streamLoop]
  | cons c cs ih =>
    simp only [streamLoop, Bool.and_false, Bool.false_eq_true, if_false, ih,
      List.map_cons, List.filterMap_cons]
    cases hcu : c.truthyUsage with
    | none => simp
    | some u => simp [getLast?_getD_cons]

/-- Branch shape of the streaming orchestrator on a clean run: streaming
mode forced successfully, every chunk consumed with no cancellation
observed and no mid-stream error. -/
theorem stream_eq_clean (base_url api_type : String) (reg : Registry)
    (request reqS : PyDict) (request_id : Option String) (cs : List Chunk)
    (ts now : String) (lat : Int)
    (hfs : forceStream request = some reqS) :
    create_chat_completion_stream base_url api_type reg request request_id
      none (.chunksThen cs none) ts now lat =
      { events := cs.map (fun c => "data: " ++ c.text) ++ ["data: [DONE]"],
        error := none,
        records := [successRecord ts (reqIdField request_id) true
          ((dictGet reqS "model").getD (.vStr "")) base_url api_type
          (((cs.filterMap Chunk.truthyUsage).getLast?).getD initLastUsage) lat],
        registry := releaseRegistration (truthyId request_id)
          (match truthyId request_id with
            | some id => regInsert reg id false
            | none => reg) } := by
  simp only [create_chat_completion_stream, hfs]
  rw [streamLoop_no_cancel]
  rfl

/-- C5. A streaming request whose upstream yields three chunks, only the
last carrying usage `{prompt_tokens: 10, completion_tokens: 5}`, with no
cancellation, emits exactly the three serialized chunks followed by the
`[DONE]` sentinel and records `input=10, output=5, total=15`; in general
the last chunk carrying a (truthy) usage block fully replaces all earlier
ones with no merging. -/
theorem stream_chunks_events_and_last_usage (base_url api_type : String)
    (reg : Registry) (request reqS : PyDict) (request_id : Option String)
    (t1 t2 t3 ts now : String) (lat : Int)
    (hfs : forceStream request = some reqS) :
    ((create_chat_completion_stream base_url api_type reg request request_id
        none (.chunksThen [⟨t1, none⟩, ⟨t2, none⟩,
          ⟨t3, some ⟨some 10, some 5, none⟩⟩] none) ts now lat).events =
      ["data: " ++ t1, "data: " ++ t2, "data: " ++ t3, "data: [DONE]"] ∧
     (∃ r, (create_chat_completion_stream base_url api_type reg request
          request_id none (.chunksThen [⟨t1, none⟩, ⟨t2, none⟩,
            ⟨t3, some ⟨some 10, some 5, none⟩⟩] none) ts now lat).records = [r] ∧
        r.input_tokens = 10 ∧ r.output_tokens = 5 ∧ r.total_tokens = 15 ∧
        r.status = "success")) ∧
    (∀ (active : Bool) (chunks : List Chunk),
      (streamLoop active none 0 initLastUsage chunks).2.1 =
        ((chunks.filterMap Chunk.truthyUsage).getLast?).getD initLastUsage) := by
  refine ⟨?_, fun active chunks => by rw [streamLoop_no_cancel]⟩
  rw [stream_eq_clean base_url api_type reg request reqS request_id _ ts now lat hfs]
  refine ⟨by simp, _, rfl, ?_, ?_, ?_, ?_⟩ <;>
    simp [Chunk.truthyUsage, UsageDict.truthy, successRecord, orZero,
      usageInput, usageOutput, initLastUsage]

/-- Witness for C5 at fully concrete inputs. -/
theorem stream_chunks_events_and_last_usage_witness :
    (create_chat_completion_stream "http://u" "openai" [] [] (some "s1")
        none (.chunksThen [⟨"c1", none⟩, ⟨"c2", none⟩,
          ⟨"c3", some ⟨some 10, some 5, none⟩⟩] none) "t0" "t1" 4).events =
      ["data: c1", "data: c2", "data: c3", "data: [DONE]"] ∧
    ∃ r, (create_chat_completion_stream "http://u" "openai" [] [] (some "s1")
        none (.chunksThen [⟨"c1", none⟩, ⟨"c2", none⟩,
          ⟨"c3", some ⟨some 10, some 5, none⟩⟩] none) "t0" "t1" 4).records = [r] ∧
      r.input_tokens = 10 ∧ r.output_tokens = 5 ∧ r.total_tokens = 15 ∧
      r.status = "success" :=
  (stream_chunks_events_and_last_usage "http://u" "openai" [] []
    [("stream", .vBool true), ("stream_options", .vDict [("include_usage", .vBool true)])]
    (some "s1") "c1" "c2" "c3" "t0" "t1" 4 rfl).1

/-- C9. Before dispatch, the streaming orchestrator rewrites the request:
`stream` is set to True and `stream_options.include_usage` is set to True
(creating `stream_options` when missing), while every other top-level key
and every pre-existing `stream_options` key other than `include_usage`
keeps its value. -/
theorem stream_request_mutation_frame (req : PyDict) :
    (dictGet req "stream_options" = none →
      ∃ r', forceStream req = some r' ∧
        dictGet r' "stream" = some (.vBool true) ∧
        (∃ so, dictGet r' "stream_options" = some (.vDict so) ∧
          dictGet so "include_usage" = some (.vBool true) ∧
          ∀ k, k ≠ "include_usage" → dictGet so k = none) ∧
        (∀ k, k ≠ "stream" → k ≠ "stream_options" →
          dictGet r' k = dictGet req k)) ∧
    (∀ so0, dictGet req "stream_options" = some (.vDict so0) →
      ∃ r', forceStream req = some r' ∧
        dictGet r' "stream" = some (.vBool true) ∧
        (∃ so, dictGet r' "stream_options" = some (.vDict so) ∧
          dictGet so "include_usage" = some (.vBool true) ∧
          ∀ k, k ≠ "include_usage" → dictGet so k = dictGet so0 k) ∧
        (∀ k, k ≠ "stream" → k ≠ "stream_options" →
          dictGet r' k = dictGet req k)) := by
  have hso_ne : ("stream_options" : String) ≠ "stream" := by decide
  constructor
  · intro h
    have h1 : dictGet (dictSet req "stream" (.vBool true)) "stream_options" = none := by
      rw [dictGet_dictSet_ne _ _ _ _ hso_ne]; exact h
    refine ⟨dictSet (dictSet (dictSet req "stream" (.vBool true)) "stream_options"
        (.vDict [])) "stream_options"
        (.vDict (dictSet [] "include_usage" (.vBool true))),
      ?_, ?_, ⟨dictSet [] "include_usage" (.vBool true), ?_, ?_, ?_⟩, ?_⟩
    · simp only [forceStream, dictContains, h1, Option.isSome_none,
        Bool.false_eq_true, if_false, dictGet_dictSet_self]
    · rw [dictGet_dictSet_ne _ _ _ _ hso_ne.symm,
        dictGet_dictSet_ne _ _ _ _ hso_ne.symm, dictGet_dictSet_self]
    · exact dictGet_dictSet_self _ _ _
    · rfl
    · intro k hk
      simp [dictGet, hk.symm]
    · intro k hks hkso
      rw [dictGet_dictSet_ne _ _ _ _ hkso, dictGet_dictSet_ne _ _ _ _ hkso,
        dictGet_dictSet_ne _ _ _ _ hks]
  · intro so0 h
    have h1 : dictGet (dictSet req "stream" (.vBool true)) "stream_options"
        = some (.vDict so0) := by
      rw [dictGet_dictSet_ne _ _ _ _ hso_ne]; exact h
    refine ⟨dictSet (dictSet req "stream" (.vBool true)) "stream_options"
        (.vDict (dictSet so0 "include_usage" (.vBool true))),
      ?_, ?_, ⟨dictSet so0 "include_usage" (.vBool true), ?_, ?_, ?_⟩, ?_⟩
    · simp only [forceStream, dictContains, h1, Option.isSome_some, if_true]
    · rw [dictGet_dictSet_ne _ _ _ _ hso_ne.symm, dictGet_dictSet_self]
    · exact dictGet_dictSet_self _ _ _
    · exact dictGet_dictSet_self _ _ _
    · intro k hk
      exact dictGet_dictSet_ne _ _ _ _ hk
    · intro k hks hkso
      rw [dictGet_dictSet_ne _ _ _ _ hkso, dictGet_dictSet_ne _ _ _ _ hks]

/-- Witness for C9: a request without stream options gains
`stream = True` and `stream_options = {include_usage: True}` while its
`model` key is untouched; a request with existing stream options keeps its
other option key. -/
theorem stream_request_mutation_frame_witness :
    (∃ r', forceStream [("model", PyVal.vStr "m")] = some r' ∧
      dictGet r' "stream" = some (.vBool true) ∧
      (∃ so, dictGet r' "stream_options" = some (.vDict so) ∧
        dictGet so "include_usage" = some (.vBool true) ∧
        ∀ k, k ≠ "include_usage" → dictGet so k = none) ∧
      (∀ k, k ≠ "stream" → k ≠ "stream_options" →
        dictGet r' k = dictGet [("model", PyVal.vStr "m")] k)) ∧
    (∃ r', forceStream [("stream_options", PyVal.vDict [("x", .vBool false)])]
        = some r' ∧
      dictGet r' "stream" = some (.vBool true) ∧
      (∃ so, dictGet r' "stream_options" = some (.vDict so) ∧
        dictGet so "include_usage" = some (.vBool true) ∧
        ∀ k, k ≠ "include_usage" →
          dictGet so k = dictGet [("x", PyVal.vBool false)] k) ∧
      (∀ k, k ≠ "stream" → k ≠ "stream_options" →
        dictGet r' k =
          dictGet [("stream_options", PyVal.vDict [("x", .vBool false)])] k)) :=
  ⟨(stream_request_mutation_frame [("model", PyVal.vStr "m")]).1 rfl,
   (stream_request_mutation_frame
      [("stream_options", PyVal.vDict [("x", .vBool false)])]).2
      [("x", PyVal.vBool false)] rfl⟩

/-- C1 (evidence). When `cancel_request` sets the signal before the race
point (non-streaming) or before the first chunk-boundary check
(streaming), the internally raised `HTTPException(499, "Request cancelled
by client")` is caught by the blanket `except Exception` clause of the
same `try` (fastapi's HTTPException subclasses `Exception` and none of the
openai error types listed before it), so the caller observes status 500
with detail "Unexpected error: 499: Request cancelled by client" and the
usage row is tagged `unexpected:`, not a 499 `CancelledByCaller`. -/
theorem cancelled_request_wrapped_to_500 :
    (create_chat_completion "http://u" "openai" [] [] (some "req-1") true
      (.success ⟨"body", none⟩) "t0" "t1" 5).result =
        Except.error ⟨500, "Unexpected error: 499: Request cancelled by client"⟩ ∧
    (create_chat_completion "http://u" "openai" [] [] (some "req-1") true
      (.success ⟨"body", none⟩) "t0" "t1" 5).records =
        [errorRecord "t1" "req-1" false (.vStr "") "http://u" "openai" 5
          "unexpected:499: Request cancelled by client"] ∧
    (create_chat_completion_stream "http://u" "openai" [] [] (some "req-1")
      (some 0) (.chunksThen [⟨"c1", none⟩] none) "t0" "t1" 5).error =
        some ⟨500, "Unexpected error: 499: Request cancelled by client"⟩ ∧
    (create_chat_completion_stream "http://u" "openai" [] [] (some "req-1")
      (some 0) (.chunksThen [⟨"c1", none⟩] none) "t0" "t1" 5).events = [] := by
  refine ⟨rfl, rfl, rfl, rfl⟩

end ClaudeProxy
